import Mathlib

/-!
Shallow embedding of the neural-command-layer decision pipeline
(`src/IntentParser.ts`, `src/CommandRouter.ts`, `src/CommandAgent.ts`,
`src/types.ts`).

JavaScript numbers are modelled as `Rat` (`ℚ`); machine `NaN` arising from
`parseInt` on a digit-free string is modelled by the dedicated `JsNum.nan`
constructor, and the `0/0` consensus `NaN` by an `Option ℚ` that is `none`.
JavaScript truthiness (`0`, `""`, `NaN`, `undefined` are falsy) is modelled
explicitly at each `||` / `?:` site.  Numeric string rendering (`toFixed`,
template-literal number display) is implemented exactly on rationals; it can
differ from IEEE-754 double rendering only in float-rounding corner cases,
which no theorem below depends on.
-/

set_option maxHeartbeats 1000000

/-- The closed intent enumeration of `types.ts` (`CommandIntentType`). -/
inductive Intent where
  | BUY | SELL | QUERY | ALERT | ANALYZE | CONFIG | STOP | STATUS
deriving DecidableEq, Repr

/-- The string form of an intent, as `command.intent` is stored in JS. -/
def intentString : Intent → String
  | .BUY => "BUY"
  | .SELL => "SELL"
  | .QUERY => "QUERY"
  | .ALERT => "ALERT"
  | .ANALYZE => "ANALYZE"
  | .CONFIG => "CONFIG"
  | .STOP => "STOP"
  | .STATUS => "STATUS"

/-- Model of `String.prototype.toLowerCase` (ASCII, all the code relies on). -/
def strLower (s : String) : String := String.mk (s.toList.map Char.toLower)

/-- Model of `String.prototype.toUpperCase` (ASCII). -/
def strUpper (s : String) : String := String.mk (s.toList.map Char.toUpper)

/-- Model of `intent.toLowerCase()`. -/
def intentLower (i : Intent) : String := strLower (intentString i)

/-- A JavaScript number that may be `NaN` (result of `parseInt` on a
digit-free string); all other numbers appearing here are integers. -/
inductive JsNum where
  | nan : JsNum
  | int : Int → JsNum
deriving DecidableEq, Repr

/-- JS truthiness of a number: `0` and `NaN` are falsy. -/
def JsNum.truthy : JsNum → Bool
  | .nan => false
  | .int n => n != 0

/-- JS template-literal rendering of an integer-or-NaN number. -/
def JsNum.render : JsNum → String
  | .nan => "NaN"
  | .int n => toString n

/-- JS truthiness of an optional number (`undefined`, `0`, `NaN` falsy). -/
def jsNumOptTruthy : Option JsNum → Bool
  | none => false
  | some v => v.truthy

/-- JS truthiness of an optional integer field. -/
def jsIntOptTruthy : Option Int → Bool
  | none => false
  | some n => n != 0

/-- JS truthiness of an optional rational field. -/
def jsRatOptTruthy : Option ℚ → Bool
  | none => false
  | some q => q != 0

/-- JS truthiness of an optional string field (`undefined` and `""` falsy). -/
def jsStrOptTruthy : Option String → Bool
  | none => false
  | some s => s != ""

/-- The `ExtractedEntities` schema of `types.ts`: every field independently optional. -/
structure Entities where
  symbol : Option String := none
  amount : Option JsNum := none
  price : Option ℚ := none
  quantity : Option Int := none
  timeframe : Option String := none
  condition : Option String := none
deriving DecidableEq, Repr

/-- The `ParsedCommand` schema of `types.ts`. -/
structure ParsedCommand where
  intent : Intent
  entities : Entities
  originalText : String
  confidence : ℚ
  needsConfirmation : Bool
deriving DecidableEq, Repr

/- ## String utilities mirroring the JS operations used by `fallbackParse`
(implemented structurally on character lists so that they evaluate inside
the kernel) -/

/-- Whether `needle` is a leading segment of `hay` (character lists). -/
def startsWithList : List Char → List Char → Bool
  | [], _ => true
  | _ :: _, [] => false
  | a :: as, b :: bs => a == b && startsWithList as bs

/-- Whether `hay` contains `needle` as a contiguous substring (character lists). -/
def containsSub (hay needle : List Char) : Bool :=
  match hay with
  | [] => needle.isEmpty
  | _ :: t => startsWithList needle hay || containsSub t needle

/-- Model of `String.prototype.includes`. -/
def strIncludes (s t : String) : Bool := containsSub s.toList t.toList

/-- Maximal runs of characters satisfying `p` (accumulator holds the current
run reversed); used to model word-boundary tokenisation. -/
def runsAux (p : Char → Bool) : List Char → List Char → List (List Char)
  | [], acc => if acc.isEmpty then [] else [acc.reverse]
  | c :: cs, acc =>
    if p c then runsAux p cs (c :: acc)
    else if acc.isEmpty then runsAux p cs []
    else acc.reverse :: runsAux p cs []

/-- A JS regex word character (`\w`): letter, digit or underscore. -/
def isWordChar (c : Char) : Bool := c.isAlpha || c.isDigit || c == '_'

/-- The matches of `/\b([A-Za-z]{1,5})\b/g`: the maximal word-character runs
that consist purely of ASCII letters and have length 1–5, in text order. -/
def alphaTokens (s : String) : List String :=
  ((runsAux isWordChar s.toList []).filter
    (fun r => r.all (fun c => c.isAlpha) && r.length ≤ 5)).map
    (fun r => String.mk r)

/-- The stop-word list of `IntentParser.fallbackParse`. -/
def stopWords : List String :=
  ["buy", "sell", "of", "the", "and", "or", "at", "for", "in", "on"]

/-- Model of `command.match(/\b([A-Za-z]{1,5})\b/g)`: `none` models the `null` result
when there is no match at all. -/
def jsMatchTokens (s : String) : Option (List String) :=
  let ms := alphaTokens s
  if ms.isEmpty then none else some ms

/-- The symbol computed by the fallback branches: filter out stop words
(case-insensitively) and upper-case the first survivor. -/
def symbolFromMatch (symbolMatch : Option (List String)) : Option String :=
  match symbolMatch with
  | none => none
  | some ms =>
    let filtered := ms.filter (fun word => !(stopWords.contains (strLower word)))
    filtered.head?.map strUpper

/-- The capture group of the first match of `/\$([0-9,]+)/`: scan for a `$`
immediately followed by at least one digit-or-comma, and take the maximal
digit-or-comma run after it. -/
def findAmountGroup : List Char → Option (List Char)
  | [] => none
  | c :: rest =>
    if c = '$' then
      let g := rest.takeWhile (fun ch => ch.isDigit || ch == ',')
      if g.isEmpty then findAmountGroup rest else some g
    else findAmountGroup rest

/-- Model of `String.prototype.replace(',', '')`: removes only the FIRST comma. -/
def removeFirstComma : List Char → List Char
  | [] => []
  | c :: rest => if c = ',' then rest else c :: removeFirstComma rest

/-- Numeric value of a digit list (most significant first). -/
def digitsVal (ds : List Char) : Int :=
  ds.foldl (fun acc c => acc * 10 + (Int.ofNat (c.toNat - 48))) 0

/-- Model of `parseInt` on a string of digits and commas: reads the leading digit run;
`NaN` when there is no leading digit. -/
def jsParseInt (cs : List Char) : JsNum :=
  let ds := cs.takeWhile Char.isDigit
  if ds.isEmpty then .nan else .int (digitsVal ds)

/-- Embedding of `IntentParser.fallbackParse`: the deterministic terminal fallback used
whenever the semantic resolver throws, returns non-JSON, or fails schema
validation. -/
def fallbackParse (command : String) : ParsedCommand :=
  let lowerCommand := strLower command
  if strIncludes lowerCommand "buy" || strIncludes lowerCommand "purchase" then
    let symbolMatch := jsMatchTokens command
    let amountMatch := findAmountGroup command.toList
    { intent := .BUY
      entities :=
        { symbol := symbolFromMatch symbolMatch
          amount := amountMatch.map (fun g => jsParseInt (removeFirstComma g)) }
      originalText := command
      confidence := 7/10
      needsConfirmation := true }
  else if strIncludes lowerCommand "sell" then
    let symbolMatch := jsMatchTokens command
    { intent := .SELL
      entities := { symbol := symbolFromMatch symbolMatch }
      originalText := command
      confidence := 7/10
      needsConfirmation := true }
  else if strIncludes lowerCommand "status" || strIncludes lowerCommand "portfolio" then
    { intent := .STATUS
      entities := {}
      originalText := command
      confidence := 7/10
      needsConfirmation := false }
  else
    { intent := .QUERY
      entities := {}
      originalText := command
      confidence := 3/10
      needsConfirmation := false }

/-- The symbol-extraction policy as the spec words it: scan alphabetic tokens
of length 1–5, discard the fixed stop-word set, take the first surviving
token, upper-case it; `none` when no token survives. -/
def specSymbolOf (text : String) : Option String :=
  (((alphaTokens text).filter
    (fun word => !(stopWords.contains (strLower word)))).head?).map strUpper


/- ## Evidence model (`CommandRouter.gatherAgentInputs`) -/

/-- Zero-padding for a fractional digit block. -/
def padZeros (s : String) (k : ℕ) : String :=
  String.mk (List.replicate (k - s.length) '0') ++ s

/-- Model of `Number.prototype.toFixed(d)` on an exact rational: scale, round half
away from zero, re-split into integer and `d` fractional digits. -/
def jsToFixed (d : ℕ) (q : ℚ) : String :=
  let scaled := q * (10 : ℚ) ^ d
  let n : Int := if scaled < 0 then -⌊-scaled + 1/2⌋ else ⌊scaled + 1/2⌋
  let sign := if n < 0 then "-" else ""
  let m := n.natAbs
  if d = 0 then sign ++ toString m
  else sign ++ toString (m / 10 ^ d) ++ "." ++ padZeros (toString (m % 10 ^ d)) d

/-- Strip trailing zeros of a fractional block. -/
def dropTrailingZeros (cs : List Char) : List Char :=
  (cs.reverse.dropWhile (fun c => c = '0')).reverse

/-- JS template-literal rendering of a number (`${q}`): exact for integers;
non-integral values are rendered to at most six decimals with trailing zeros
trimmed (an approximation of shortest-roundtrip double printing that no
theorem depends on). -/
def qRender (q : ℚ) : String :=
  if q.den = 1 then toString q.num
  else
    let s := jsToFixed 6 q
    match s.toList.span (fun c => c ≠ '.') with
    | (intPart, fracPart) =>
      let frac := dropTrailingZeros (fracPart.drop 1)
      if frac.isEmpty then String.mk intPart
      else String.mk intPart ++ "." ++ String.mk frac

/-- Trend values computed by the technical analysis. -/
inductive Trend where
  | Bullish | Bearish | Sideways
deriving DecidableEq, Repr

/-- One OHLCV row as consumed by the market transform (`close`, `volume`). -/
structure OhlcvRow where
  close : ℚ
  volume : ℚ
deriving DecidableEq, Repr

/-- The JSON body returned by `market-data.get_ohlcv`; `rows` may be absent. -/
structure MarketRaw where
  rows : Option (List OhlcvRow)
deriving DecidableEq, Repr

/-- The JSON body returned by `nlp-sentiment.analyze`; fields may be absent. -/
structure SentimentRaw where
  sentiment : Option ℚ
  confidence : Option ℚ
  sources : Option (List String)
deriving DecidableEq, Repr

/-- The JSON body returned by `risk-engine.assess_symbol`. -/
structure RiskRaw where
  status : Option String
  riskScore : Option ℚ
  factors : Option (List String)
deriving DecidableEq, Repr

/-- The `marketData` sub-record of the agent analysis. -/
structure MarketData where
  price : ℚ
  change : ℚ
  volume : ℚ
deriving DecidableEq, Repr

/-- The `sentiment` sub-record of the agent analysis. -/
structure Sentiment where
  score : ℚ
  confidence : ℚ
  sources : List String
deriving DecidableEq, Repr

/-- The `technical` sub-record of the agent analysis (`rsi` is the mocked
integer draw `floor(random()*30)+35`). -/
structure Technical where
  trend : Trend
  rsi : ℕ
  support : ℚ
  resistance : ℚ
deriving DecidableEq, Repr

/-- The `risk` sub-record of the agent analysis. -/
structure Risk where
  status : String
  score : ℚ
  factors : List String
deriving DecidableEq, Repr

/-- The `strategy` sub-record of the agent analysis. -/
structure Strategy where
  recommendation : String
  confidence : ℚ
  reasoning : String
deriving DecidableEq, Repr

/-- The `results` object built by `gatherAgentInputs`, and the shape consumed
by `synthesizeAgentInputs`: each field independently present or absent. -/
structure AgentAnalysis where
  marketData : Option MarketData := none
  sentiment : Option Sentiment := none
  technical : Option Technical := none
  risk : Option Risk := none
  strategy : Option Strategy := none
deriving DecidableEq, Repr

/-- JS `v || d` on a number that may be absent: `undefined`, `0` fall back. -/
def jsOrQ (v : Option ℚ) (d : ℚ) : ℚ :=
  match v with
  | none => d
  | some q => if q = 0 then d else q

/-- JS `v || d` on a string that may be absent: `undefined`, `""` fall back. -/
def jsOrStr (v : Option String) (d : String) : String :=
  match v with
  | none => d
  | some s => if s = "" then d else s

/-- The `.then` transform of the market-data call: picks the last and
second-to-last rows, with `|| 100` / `|| 1000000` truthiness fallbacks.  (The
`previous`-present/`latest`-absent case cannot occur because `previous` comes
from a strictly shorter slice of the same array; it is mapped to change 0.) -/
def marketFromRows (data : MarketRaw) : MarketData :=
  let latest :=
    match data.rows with
    | none => none
    | some rs => rs.getLast?
  let previous :=
    match data.rows with
    | none => none
    | some rs => rs.dropLast.getLast?
  { price :=
      match latest with
      | some l => if l.close = 0 then 100 else l.close
      | none => 100
    change :=
      match previous, latest with
      | some p, some l => ((l.close - p.close) / p.close) * 100
      | some _, none => 0
      | none, _ => 0
    volume :=
      match latest with
      | some l => if l.volume = 0 then 1000000 else l.volume
      | none => 1000000 }

/-- The `.then` transform of the sentiment call, with the per-field `||`
defaults of the source. -/
def sentimentFromRaw (data : SentimentRaw) : Sentiment :=
  { score := jsOrQ data.sentiment (1/2)
    confidence := jsOrQ data.confidence (7/10)
    sources := data.sources.getD ["mock"] }

/-- The `.then` transform of the risk call, with the per-field `||` defaults
of the source. -/
def riskFromRaw (data : RiskRaw) : Risk :=
  { status := jsOrStr data.status "MEDIUM"
    score := jsOrQ data.riskScore 5
    factors := data.factors.getD ["volatility", "liquidity"] }

/-- Embedding of `CommandRouter.gatherAgentInputs`: the three remote calls are modelled by
their `Except` outcomes (`error` = the promise rejected, recovered by the
attached `.catch` with the documented per-source default), and the mocked RSI
draw `Math.floor(Math.random()*30)+35` by `randRsi : Fin 30`.  Because every
call carries a `.catch`, `Promise.allSettled` always reports all three as
fulfilled, so all five fields of the returned record are present. -/
def gatherAgentInputs (marketResult : Except String MarketRaw)
    (sentimentResult : Except String SentimentRaw)
    (riskResult : Except String RiskRaw)
    (intent : Intent) (randRsi : Fin 30) : AgentAnalysis :=
  let marketData : MarketData :=
    match marketResult with
    | .ok data => marketFromRows data
    | .error _ => { price := 100, change := 0, volume := 1000000 }
  let sentiment : Sentiment :=
    match sentimentResult with
    | .ok data => sentimentFromRaw data
    | .error _ => { score := 1/2, confidence := 7/10, sources := ["mock"] }
  let risk : Risk :=
    match riskResult with
    | .ok data => riskFromRaw data
    | .error _ => { status := "MEDIUM", score := 5, factors := ["volatility"] }
  let technical : Technical :=
    { trend :=
        if marketData.change > 2 then .Bullish
        else if marketData.change < -2 then .Bearish
        else .Sideways
      rsi := randRsi.val + 35
      support := marketData.price * (95/100)
      resistance := marketData.price * (105/100) }
  let strategy : Strategy :=
    { recommendation :=
        if intent = .BUY then
          (if sentiment.score > 3/5 ∧ technical.trend ≠ .Bearish then "BUY" else "HOLD")
        else
          (if sentiment.score < 2/5 ∧ technical.trend ≠ .Bullish then "SELL" else "HOLD")
      confidence := min (9/10) ((if sentiment.confidence = 0 then 7/10 else sentiment.confidence) * (8/10) + 2/10)
      reasoning := "Based on sentiment ("
        ++ jsToFixed 0 ((if sentiment.score = 0 then 1/2 else sentiment.score) * 100)
        ++ "%) and technical analysis" }
  { marketData := some marketData
    sentiment := some sentiment
    technical := some technical
    risk := some risk
    strategy := some strategy }

/- ## Consensus synthesis (`CommandRouter.synthesizeAgentInputs`) -/

/-- The running counters and reasons of `synthesizeAgentInputs`. -/
structure SignalTally where
  positiveSignals : ℕ
  negativeSignals : ℕ
  totalSignals : ℕ
  reasons : List String
deriving DecidableEq, Repr

/-- The market-momentum block: the dimension is counted whenever market data
is present, but classified only for intent BUY (the source has no branch for
any other intent inside this block). -/
def tallyMarket (intent : Intent) (md : Option MarketData) (t : SignalTally) : SignalTally :=
  match md with
  | none => t
  | some m =>
    let t := { t with totalSignals := t.totalSignals + 1 }
    if intent = .BUY then
      if m.change > 0 then
        { t with positiveSignals := t.positiveSignals + 1
                 reasons := t.reasons ++ ["Price momentum positive"] }
      else
        { t with negativeSignals := t.negativeSignals + 1
                 reasons := t.reasons ++ ["Price momentum negative"] }
    else t

/-- The sentiment-alignment block. -/
def tallySentiment (intent : Intent) (st : Option Sentiment) (t : SignalTally) : SignalTally :=
  match st with
  | none => t
  | some s =>
    let t := { t with totalSignals := t.totalSignals + 1 }
    if intent = .BUY ∧ s.score > 3/5 then
      { t with positiveSignals := t.positiveSignals + 1
               reasons := t.reasons ++ ["Sentiment bullish"] }
    else if intent = .SELL ∧ s.score < 2/5 then
      { t with positiveSignals := t.positiveSignals + 1
               reasons := t.reasons ++ ["Sentiment bearish"] }
    else
      { t with negativeSignals := t.negativeSignals + 1
               reasons := t.reasons ++ ["Sentiment not aligned"] }

/-- The technical-trend block. -/
def tallyTechnical (intent : Intent) (tc : Option Technical) (t : SignalTally) : SignalTally :=
  match tc with
  | none => t
  | some te =>
    let t := { t with totalSignals := t.totalSignals + 1 }
    let trendAligned := (intent = .BUY ∧ te.trend = .Bullish) ∨ (intent = .SELL ∧ te.trend = .Bearish)
    if trendAligned then
      { t with positiveSignals := t.positiveSignals + 1
               reasons := t.reasons ++ ["Technical trend aligned"] }
    else
      { t with negativeSignals := t.negativeSignals + 1
               reasons := t.reasons ++ ["Technical trend not aligned"] }

/-- The risk-acceptability block. -/
def tallyRisk (rk : Option Risk) (t : SignalTally) : SignalTally :=
  match rk with
  | none => t
  | some r =>
    let t := { t with totalSignals := t.totalSignals + 1 }
    if r.score ≤ 6 then
      { t with positiveSignals := t.positiveSignals + 1
               reasons := t.reasons ++ ["Risk acceptable"] }
    else
      { t with negativeSignals := t.negativeSignals + 1
               reasons := t.reasons ++ ["Risk too high"] }

/-- The four signal blocks of `synthesizeAgentInputs`, run in source order
(market, sentiment, technical, risk) over zeroed counters. -/
def initialTally : SignalTally := ⟨0, 0, 0, []⟩

def tallySignals (analysis : AgentAnalysis) (intent : Intent) : SignalTally :=
  tallyRisk analysis.risk
    (tallyTechnical intent analysis.technical
      (tallySentiment intent analysis.sentiment
        (tallyMarket intent analysis.marketData initialTally)))

/-- The `ConsensusVerdict` returned by `synthesizeAgentInputs`.  `confidence`
is the raw JS division `positiveSignals / totalSignals`: `none` models the
`NaN` produced by `0 / 0` when no dimension was counted. -/
structure Verdict where
  shouldProceed : Bool
  decision : String
  confidence : Option ℚ
  reason : String
  suggestedQuantity : Int
  suggestedPrice : Option ℚ
deriving DecidableEq, Repr

/-- Embedding of `CommandRouter.synthesizeAgentInputs`.  `consensus >= 0.6` is false in JS
when `consensus` is `NaN`, and `shouldProceed ? Math.max(1, Math.floor(10 *
consensus)) : 1` therefore yields 1 on the `NaN` branch. -/
def synthesizeAgentInputs (analysis : AgentAnalysis) (intent : Intent) : Verdict :=
  let t := tallySignals analysis intent
  let consensus : Option ℚ :=
    if t.totalSignals = 0 then none
    else some ((t.positiveSignals : ℚ) / (t.totalSignals : ℚ))
  let shouldProceed : Bool :=
    match consensus with
    | none => false
    | some c => decide ((3 : ℚ)/5 ≤ c)
  let p := toString t.positiveSignals
  let n := toString t.totalSignals
  { shouldProceed := shouldProceed
    decision :=
      if shouldProceed then p ++ "/" ++ n ++ " agents agree - PROCEED"
      else "Only " ++ p ++ "/" ++ n ++ " agents agree - CAUTION"
    confidence := consensus
    reason := String.intercalate ", " t.reasons
    suggestedQuantity :=
      match consensus with
      | none => 1
      | some c => if (3 : ℚ)/5 ≤ c then max 1 ⌊(10 : ℚ) * c⌋ else 1
    suggestedPrice := analysis.marketData.map (fun m => m.price) }

/-- The evidence record with no dimension present. -/
def emptyAnalysis : AgentAnalysis := {}

/-- An evidence record carrying only market data, with negative momentum. -/
def marketOnlyNegAnalysis : AgentAnalysis :=
  { marketData := some { price := 100, change := -1, volume := 1000000 } }

/- ## Router layer (`CommandRouter.routeCommand` and handlers) -/

/-- The JSON body returned by `risk-engine.pretrade_check`. -/
structure PretradeRaw where
  status : Option String
  breaches : Option (List String)
deriving DecidableEq, Repr

/-- The shapes that appear in the `data` field of a `CommandResponse`. -/
inductive RespData where
  | confirmGate (intent : Intent) (entities : Entities) (confidence : ℚ)
  | requiresConfirmation (parsedCommand : ParsedCommand) (agentAnalysis : AgentAnalysis) (recommendation : Verdict)
  | tradeRejected (agentAnalysis : AgentAnalysis) (riskCheck : PretradeRaw)
  | notProceed (agentAnalysis : AgentAnalysis) (recommendation : Verdict)
  | statusInfo (activeAgents : List String) (portfolioValue dailyPnL : String) (openPositions : ℕ) (swarmUptime : String)
  | alertInfo (alertId : String)
  | analysisInfo (analysis : String) (timeframe : String) (sharpeRatio sectorEfficiency : ℚ)
  | stopInfo (action : String) (timestamp : String)
  | processError (error : String)
deriving DecidableEq, Repr

/-- The `CommandResponse` schema of `types.ts`. -/
structure CommandResponse where
  success : Bool
  message : String
  data : Option RespData := none
  followUp : Option String := none
deriving DecidableEq, Repr

/-- The environment a single `routeCommand` run observes: the predetermined
outcome of each external service call (`error` = the promise rejected with
that message), the two `Math.random` draws, and the clock reads. -/
structure Env where
  marketResult : Except String MarketRaw
  sentimentResult : Except String SentimentRaw
  riskAssessResult : Except String RiskRaw
  pretradeResult : Except String PretradeRaw
  alertSetResult : Except String Unit
  randQuery : Fin 7
  randRsi : Fin 30
  nowIso : String
  nowMs : ℕ

/-- Embedding of `getBlipResponse`: the Signal agent line of the analysis message. -/
def getBlipResponse (marketData : MarketData) (symbol : String) : String :=
  let changeEmoji := if marketData.change > 0 then "🚀" else if marketData.change < 0 then "📉" else "😐"
  let excitement := if marketData.change > 2 then "WHOA! WHOA! WHOA!" else if marketData.change > 0 then "Ooh! Ooh!" else "Eh..."
  excitement ++ " " ++ symbol ++ " is at $" ++ qRender marketData.price ++ " " ++ changeEmoji ++ " "
    ++ (if marketData.change > 0 then "+" else "") ++ jsToFixed 2 marketData.change
    ++ "%! *beep beep* Volume\x27s at " ++ jsToFixed 1 (marketData.volume / 1000000)
    ++ "M shares! *circuit buzzing* Data looks " ++ (if marketData.change > 0 then "TASTY" else "kinda stale")
    ++ " to me! 🔥"

/-- Embedding of `getGillyResponse`: the Sentiment agent line. -/
def getGillyResponse (sentiment : Sentiment) (symbol : String) : String :=
  let vibeCheck := if sentiment.score > 3/5 then "The vibes are IMMACULATE" else if sentiment.score < 2/5 then "Big yikes energy" else "Neutral vibes, I guess"
  let emoji := if sentiment.score > 3/5 then "🚀💎" else if sentiment.score < 2/5 then "📉😬" else "😐🤷‍♀️"
  let memeRef := if sentiment.score > 3/5 then "To the moon! 🌙" else if sentiment.score < 2/5 then "RIP in chat 💀" else "Sideways action, no cap"
  vibeCheck ++ " on " ++ symbol ++ " rn " ++ emoji ++ "! Sentiment score: " ++ jsToFixed 0 (sentiment.score * 100)
    ++ "%. " ++ memeRef ++ " *scrolling through social feeds* The internet says... well, you know how it is! 📱✨"

/-- Lower-cased rendering of a trend value. -/
def trendLower : Trend → String
  | .Bullish => "bullish"
  | .Bearish => "bearish"
  | .Sideways => "sideways"

/-- Embedding of `getMargoResponse`: the Trend agent line. -/
def getMargoResponse (technical : Technical) (symbol : String) : String :=
  let trendFlow :=
    match technical.trend with
    | .Bullish => "flows upward like a gentle stream"
    | .Bearish => "descends gracefully like autumn leaves"
    | .Sideways => "moves in perfect balance"
  let rsiWisdom := if technical.rsi > 60 then "perhaps approaching overbought tranquility" else if technical.rsi < 40 then "resting in oversold serenity" else "dwelling in harmonious equilibrium"
  "*graceful processor hum* " ++ symbol ++ " " ++ trendFlow ++ "... RSI of " ++ toString technical.rsi
    ++ " suggests " ++ rsiWisdom ++ ". Support beckons at $" ++ jsToFixed 2 technical.support
    ++ ", resistance awaits at $" ++ jsToFixed 2 technical.resistance
    ++ ". The patterns whisper of " ++ trendLower technical.trend ++ " intentions... 🌸"

/-- Embedding of `getAquaResponse`: the Strategy agent line. -/
def getAquaResponse (strategy : Strategy) (intent : Intent) (_symbol : String) : String :=
  let brainSpark := if strategy.confidence > 4/5 then "💡✨EUREKA!✨💡" else if strategy.confidence > 3/5 then "*brain circuits lighting up*" else "*thoughtful processing*"
  let playfulTone := if strategy.recommendation = intentString intent then "My genius brain agrees!" else "Hmm, my calculations suggest otherwise..."
  brainSpark ++ " " ++ playfulTone ++ " Strategy matrix says: " ++ strategy.recommendation ++ " with "
    ++ jsToFixed 0 (strategy.confidence * 100) ++ "% confidence! *dome glowing brighter* "
    ++ strategy.reasoning ++ ". Want to see my full calculation matrix? It\x27s quite elegant! 🧠💫"

/-- Embedding of `getSheldonResponse`: the Risk agent line. -/
def getSheldonResponse (risk : Risk) (symbol : String) (intent : Intent) : String :=
  let panicLevel := if risk.score > 7 then "🚨 RED ALERT! DANGER! 🚨" else if risk.score > 5 then "⚠️ Caution advised..." else "✅ Within acceptable parameters"
  let sheldonWorry := if risk.score > 7 then "*calculator spinning frantically*" else if risk.score > 5 then "*nervous beeping*" else "*calm calculating*"
  let riskFactors := if risk.factors.isEmpty then "standard market factors" else String.intercalate ", " risk.factors
  sheldonWorry ++ " " ++ panicLevel ++ " Risk assessment for " ++ symbol ++ ": " ++ qRender risk.score
    ++ "/10! Status: " ++ risk.status ++ ". Factors detected: " ++ riskFactors
    ++ ". *chest calculator flashing* "
    ++ (if intent = .SELL then "At least you\x27re not buying more risk!" else "Are you SURE about this?!")
    ++ " 📊⚠️"

/-- Embedding of `CommandRouter.handleTradingCommand` (the agent-swarm variant): guard on
a missing symbol, then gather, narrate, synthesize, and either run the final
pre-trade risk check (confirm / reject) or refuse the trade. -/
def handleTradingCommand (env : Env) (command : ParsedCommand) : CommandResponse :=
  match command.entities.symbol with
  | none =>
    { success := false
      message := "Please specify a stock symbol for trading commands." }
  | some symbol =>
    let agentAnalysis := gatherAgentInputs env.marketResult env.sentimentResult env.riskAssessResult command.intent env.randRsi
    let m1 := "🤖 **Agent Swarm Analysis for " ++ symbol ++ "**\n\n"
    let m2 := m1 ++ (match agentAnalysis.marketData with
      | some md => "🟠 **Blip (Signal Agent)**: " ++ getBlipResponse md symbol ++ "\n"
      | none => "")
    let m3 := m2 ++ (match agentAnalysis.sentiment with
      | some st => "🔵 **Gilly (Sentiment Agent)**: " ++ getGillyResponse st symbol ++ "\n"
      | none => "")
    let m4 := m3 ++ (match agentAnalysis.technical with
      | some tc => "🟢 **Margo (Trend Agent)**: " ++ getMargoResponse tc symbol ++ "\n"
      | none => "")
    let m5 := m4 ++ (match agentAnalysis.strategy with
      | some sg => "🟣 **Aqua (Strategy Agent)**: " ++ getAquaResponse sg command.intent symbol ++ "\n"
      | none => "")
    let m6 := m5 ++ (match agentAnalysis.risk with
      | some rk => "⚪ **Sheldon (Risk Agent)**: " ++ getSheldonResponse rk symbol command.intent ++ "\n"
      | none => "")
    let recommendation := synthesizeAgentInputs agentAnalysis command.intent
    let analysisMessage := m6 ++ "\n🧠 **Swarm Consensus**: " ++ recommendation.decision ++ "\n"
    if recommendation.shouldProceed then
      let analysisMessage := analysisMessage
        ++ "\n✅ Agents recommend proceeding with " ++ intentString command.intent ++ " of " ++ symbol
      let quantity : Int :=
        match command.entities.quantity with
        | some n => if n ≠ 0 then n else (if recommendation.suggestedQuantity ≠ 0 then recommendation.suggestedQuantity else 1)
        | none => if recommendation.suggestedQuantity ≠ 0 then recommendation.suggestedQuantity else 1
      match env.pretradeResult with
      | .error e =>
        { success := false
          message := "Failed to process " ++ intentString command.intent ++ " order: " ++ e }
      | .ok riskCheck =>
        if riskCheck.status ≠ some "APPROVED" then
          { success := false
            message := analysisMessage ++ "\n\n❌ Final risk check failed: "
              ++ (match riskCheck.breaches with
                  | some bs => if bs.isEmpty then "Risk limits exceeded" else String.intercalate ", " bs
                  | none => "Risk limits exceeded")
            data := some (.tradeRejected agentAnalysis riskCheck) }
        else
          { success := true
            message := analysisMessage ++ "\n\n💼 Confirm: " ++ intentString command.intent ++ " "
              ++ toString quantity ++ " shares of " ++ symbol ++ "?"
            data := some (.requiresConfirmation command agentAnalysis recommendation)
            followUp := some "Reply with \x27yes\x27 to confirm or \x27no\x27 to cancel. All agents have provided their input above." }
    else
      { success := false
        message := analysisMessage ++ "\n\n❌ Agents recommend AGAINST this trade: " ++ recommendation.reason
        data := some (.notProceed agentAnalysis recommendation) }

/-- Embedding of `CommandRouter.handleStatusQuery` (agent-swarm variant): fixed report. -/
def handleStatusQuery (_command : ParsedCommand) : CommandResponse :=
  let agentStatuses : List String :=
    ["🟠 **Blip**: *beep beep* All systems GO! Market data flowing like electricity! ⚡",
     "🔵 **Gilly**: Vibes are good, fam! Social feeds looking spicy today 🌶️📱",
     "🟢 **Margo**: Gracefully monitoring trend flows... all patterns in harmony 🌸",
     "🟣 **Aqua**: Brain dome glowing! Strategy matrices updated and optimized 🧠✨",
     "⚪ **Sheldon**: *nervous calculating* Risk parameters within bounds... for now ⚠️📊",
     "⚫ **Tank**: Standing ready for execution. Orders locked and loaded 🎯",
     "🤍 **Reflecta**: Performance metrics... analyzing... all agents operational 📈"]
  { success := true
    message := "🤖 **Agent Swarm Status Report**\n\n" ++ String.intercalate "\n" agentStatuses
      ++ "\n\n💼 **Portfolio Overview**:\n• Value: $50,000\n• Daily P&L: +$245.67 📈\n• Open Positions: 3\n• Swarm Uptime: 99.9% ⚡"
    data := some (.statusInfo ["Blip", "Gilly", "Margo", "Aqua", "Sheldon", "Tank", "Reflecta"] "$50,000" "+$245.67" 3 "99.9%")
    followUp := some "Want to chat with any specific agent or see detailed position info? 🎮" }

/-- The seven canned agent replies of `handleGeneralQuery`. -/
def agentResponses : List String :=
  ["🟠 **Blip**: *beep beep* I heard you asking about something! What data do you need? Market prices? Volume? I\x27ve got ALL the numbers! ⚡",
   "🔵 **Gilly**: Hey! I\x27m here to help! Need some market vibes? Social sentiment? Just ask! The internet is my playground! 📱✨",
   "🟢 **Margo**: *graceful hum* I sense you seek guidance... I can share insights about market trends and patterns... 🌸",
   "🟣 **Aqua**: *brain dome sparkling* Ooh, a question! I love questions! Need strategy advice? Portfolio optimization? My circuits are buzzing! 🧠💫",
   "⚪ **Sheldon**: *cautious beeping* You\x27re asking something... is it about risk? Please tell me it\x27s about risk management! That\x27s my specialty! ⚠️📊",
   "⚫ **Tank**: Roger. Standing by for orders. Need execution? Trade management? I\x27m your bot. 🎯",
   "🤍 **Reflecta**: Query detected. Available functions: trading, analysis, status reports, portfolio metrics. Specify requirements. 📈"]

/-- Embedding of `CommandRouter.handleGeneralQuery` (agent-swarm variant): one random
agent reply plus the echo of the original text. -/
def handleGeneralQuery (env : Env) (command : ParsedCommand) : CommandResponse :=
  { success := true
    message := agentResponses.getD env.randQuery.val ""
      ++ "\n\n🤖 **Neural Command Layer**: I understand you\x27re asking: \"" ++ command.originalText
      ++ "\". Our agent swarm can help with trading, analysis, portfolio status, and market insights!"
    followUp := some "💡 Try: \"buy AAPL\", \"show status\", \"analyze portfolio\", or \"what\x27s the sentiment on Tesla?\"" }

/-- Embedding of `CommandRouter.handleAlertCommand`: clarification unless both symbol and
price are (truthily) present; then a `config.set` call that is caught on
failure. -/
def handleAlertCommand (env : Env) (command : ParsedCommand) : CommandResponse :=
  if !(jsStrOptTruthy command.entities.symbol) || !(jsRatOptTruthy command.entities.price) then
    { success := false
      message := "Please specify both symbol and price for alerts (e.g., \"alert me when AAPL hits $150\")" }
  else
    let symbol := command.entities.symbol.getD "undefined"
    let price := command.entities.price.getD 0
    let alertId := "alert_" ++ symbol ++ "_" ++ qRender price ++ "_" ++ toString env.nowMs
    match env.alertSetResult with
    | .ok _ =>
      { success := true
        message := "Alert set for " ++ symbol ++ " at $" ++ qRender price
        data := some (.alertInfo alertId)
        followUp := some "I\x27ll notify you when the price condition is met." }
    | .error _ =>
      { success := false
        message := "Failed to set alert. Please try again." }

/-- Embedding of `CommandRouter.handleAnalysisCommand` (agent-swarm variant). -/
def handleAnalysisCommand (command : ParsedCommand) : CommandResponse :=
  { success := true
    message := "🤍 **Reflecta\x27s Deep Analysis**:\n\n*chrome surface gleaming with data readouts*\n\nPortfolio metrics indicate... optimal performance vectors in technology sector. AAPL +2.1% correlation with MSFT +1.8% suggests systematic alpha capture. Energy sector volatility absorbed by diversification matrix.\n\n*stat readouts flickering*\n\nQuantitative assessment: Sharpe ratio 1.47... acceptable risk-adjusted returns. Sector allocation efficiency: 87.3%. Recommendation: Maintain current trajectory with minor rebalancing considerations.\n\n📊 *processing complete*"
    data := some (.analysisInfo "portfolio_performance" (jsOrStr command.entities.timeframe "1d") (147/100) (873/10))
    followUp := some "🤍 Reflecta: \"Additional granular analysis available upon request. Which specific metrics require examination?\"" }

/-- Embedding of `CommandRouter.handleConfigCommand`. -/
def handleConfigCommand (_command : ParsedCommand) : CommandResponse :=
  { success := true
    message := "Configuration commands not yet implemented."
    followUp := some "Available soon: risk settings, agent parameters, and trading preferences." }

/-- Embedding of `CommandRouter.handleStopCommand` (agent-swarm variant). -/
def handleStopCommand (env : Env) (_command : ParsedCommand) : CommandResponse :=
  let emergencyResponses : List String :=
    ["🟠 **Blip**: *circuits powering down* WHOA! Emergency stop activated! All data streams paused! 🛑",
     "⚫ **Tank**: Copy that. All weapons safe. Standing down. Orders suspended. 🎯❌",
     "⚪ **Sheldon**: *relieved calculating* FINALLY! Risk exposure minimized! All stop losses engaged! 🛡️",
     "🟣 **Aqua**: *brain dome dimming* Strategic pause initiated. All decision matrices on hold... 💤",
     "🤍 **Reflecta**: Emergency protocol executed. All trading functions suspended. Status: SAFE MODE. 🔒"]
  { success := true
    message := "🚨 **EMERGENCY STOP ACTIVATED** 🚨\n\n" ++ String.intercalate "\n" emergencyResponses
      ++ "\n\n🛑 All trading operations have been suspended for safety."
    data := some (.stopInfo "emergency_stop" env.nowIso)
    followUp := some "⚫ Tank: \"Awaiting orders to resume operations, Commander.\"" }

/-- Embedding of `CommandRouter.routeCommand`: dispatch on the (closed) intent. -/
def routeCommand (env : Env) (command : ParsedCommand) : CommandResponse :=
  match command.intent with
  | .BUY => handleTradingCommand env command
  | .SELL => handleTradingCommand env command
  | .STATUS => handleStatusQuery command
  | .QUERY => handleGeneralQuery env command
  | .ALERT => handleAlertCommand env command
  | .ANALYZE => handleAnalysisCommand command
  | .CONFIG => handleConfigCommand command
  | .STOP => handleStopCommand env command

/- ## Orchestrator (`CommandAgent`) -/

/-- Embedding of `CommandAgent.generateConfirmationMessage`, with the JS truthiness
defaults on `amount` and `quantity` and `undefined` rendering for a missing
symbol. -/
def generateConfirmationMessage (parsedCommand : ParsedCommand) : String :=
  let e := parsedCommand.entities
  match parsedCommand.intent with
  | .BUY =>
    let buyAmount :=
      if jsNumOptTruthy e.amount then "$" ++ (e.amount.getD (.int 0)).render
      else (match e.quantity with
            | some n => if n ≠ 0 then toString n else "1"
            | none => "1") ++ " shares"
    "Confirm: Buy " ++ buyAmount ++ " of " ++ e.symbol.getD "undefined" ++ "?"
  | .SELL =>
    let sellAmount :=
      if jsNumOptTruthy e.amount then "$" ++ (e.amount.getD (.int 0)).render ++ " worth"
      else (match e.quantity with
            | some n => if n ≠ 0 then toString n else "all"
            | none => "all") ++ " shares"
    "Confirm: Sell " ++ sellAmount ++ " of " ++ e.symbol.getD "undefined" ++ "?"
  | intent => "Confirm: Execute " ++ intentLower intent ++ " command?"

/-- The confirmation-gating step of `CommandAgent.processCommand`: with the
command already parsed (the semantic resolver and its fallback are upstream),
either short-circuit with the confirmation prompt, or hand the command to the
router.  The router is a parameter so that theorems can state that the
short-circuit consults no downstream stage.  `confirmed` is the truthiness of
`context?.confirmed`. -/
def processCommand (route : ParsedCommand → CommandResponse)
    (parsedCommand : ParsedCommand) (confirmed : Bool) : CommandResponse :=
  if parsedCommand.needsConfirmation && !confirmed then
    { success := true
      message := generateConfirmationMessage parsedCommand
      data := some (.confirmGate parsedCommand.intent parsedCommand.entities parsedCommand.confidence)
      followUp := some "Reply with \"yes\" to confirm or \"no\" to cancel." }
  else
    route parsedCommand

/-- Embedding of `CommandAgent.addToHistory` on the list of a single session: push, then `shift`
once when the capacity of 10 is exceeded. -/
def addToHistory {α : Type} (history : List α) (entry : α) : List α :=
  let h := history ++ [entry]
  if h.length > 10 then h.drop 1 else h

/-- The per-session history map update of `CommandAgent.addToHistory` (the
`Map` keyed by session id, with `[]` as the implicit initial value). -/
def addToSessionHistory {α : Type} (m : String → List α) (sessionId : String) (entry : α) :
    String → List α :=
  fun s => if s = sessionId then addToHistory (m s) entry else m s

/- ## Helper lemmas -/

/-- A text without a dollar sign has no amount match. -/
theorem findAmountGroup_eq_none (cs : List Char) (h : '$' ∉ cs) :
    findAmountGroup cs = none := by
  induction cs with
  | nil => rfl
  | cons c rest ih =>
    have hc : c ≠ '$' := fun hc => h (hc ▸ List.mem_cons_self c rest)
    have hr : '$' ∉ rest := fun hr => h (List.mem_cons_of_mem c hr)
    simp [findAmountGroup, hc, ih hr]

/-- The fallback symbol computation agrees with the spec-worded scan
(the only difference in the source is the `null`-match guard). -/
theorem symbolFromMatch_eq_spec (s : String) :
    symbolFromMatch (jsMatchTokens s) = specSymbolOf s := by
  unfold symbolFromMatch jsMatchTokens specSymbolOf
  rcases h : alphaTokens s with _ | ⟨a, as⟩ <;> simp [h]

/- ## C5 -/

/-- C5 counterexample: the claim asserts confidence 0.6 for the fallback on
"sell NVDA", but the source returns `confidence: 0.7` in the sell branch. -/
theorem claimC5_counterexample : (fallbackParse "sell NVDA").confidence ≠ 3/5 := by
  have h : (fallbackParse "sell NVDA").confidence = 7/10 := rfl
  rw [h]; norm_num

/-- C5 (amended): the fallback on "sell NVDA" yields intent SELL, symbol
"NVDA", `needsConfirmation = true` — and confidence 0.7, not 0.6. -/
theorem claimC5_amended : fallbackParse "sell NVDA" =
    { intent := .SELL
      entities := { symbol := some "NVDA" }
      originalText := "sell NVDA"
      confidence := 7/10
      needsConfirmation := true } := rfl

/- ## C6 -/

/-- C6 counterexample: the claim says "$1,250,000" yields amount 1250000,
but `replace(',', '')` removes only the first comma and `parseInt` stops at
the next one, so the source computes 1250. -/
theorem claimC6_counterexample :
    (fallbackParse "buy AAPL for $1,250,000").entities.amount
      ≠ some (JsNum.int 1250000) := by decide

/-- C6 (amended): amount extraction happens only in the buy/purchase branch;
it takes the first match of a dollar sign followed by digits-or-commas,
removes only the FIRST separator, and `parseInt` reads the leading digit run
(so "$5,000" parses fully to 5000 but "$1,250,000" truncates to 1250); a text
with no dollar sign, or any text outside the buy branch, leaves amount
unset. -/
theorem claimC6_amended :
    (∀ text : String,
        (strIncludes (strLower text) "buy" || strIncludes (strLower text) "purchase") = true →
        '$' ∉ text.toList → (fallbackParse text).entities.amount = none)
    ∧ (∀ text : String,
        (strIncludes (strLower text) "buy" || strIncludes (strLower text) "purchase") = false →
        (fallbackParse text).entities.amount = none)
    ∧ (fallbackParse "buy AAPL for $5,000").entities.amount = some (JsNum.int 5000)
    ∧ (fallbackParse "buy AAPL for $1,250,000").entities.amount = some (JsNum.int 1250) := by
  refine ⟨?_, ?_, rfl, rfl⟩
  · intro text h hd
    simp [fallbackParse, h]
    exact findAmountGroup_eq_none _ hd
  · intro text h
    cases hs : strIncludes (strLower text) "sell" <;>
      cases hp : (strIncludes (strLower text) "status" || strIncludes (strLower text) "portfolio") <;>
        simp [fallbackParse, h, hs, hp]

/-- C6 witness: the general parts of the amended claim at concrete inputs. -/
theorem claimC6_amended_witness :
    (fallbackParse "buy AAPL").entities.amount = none ∧
    (fallbackParse "sell NVDA at $5,000").entities.amount = none :=
  ⟨claimC6_amended.1 "buy AAPL" (by decide) (by decide),
   claimC6_amended.2.1 "sell NVDA at $5,000" (by decide)⟩

/- ## C7 -/

/-- C7: any text containing "buy" or "purchase" (case-insensitively) takes
the BUY fallback branch with `needsConfirmation = true`, and the symbol is
the upper-cased first stop-word-surviving alphabetic token of length 1–5
(unset when no token survives), as `specSymbolOf` words it. -/
theorem claimC7 (text : String)
    (h : (strIncludes (strLower text) "buy" || strIncludes (strLower text) "purchase") = true) :
    (fallbackParse text).intent = .BUY ∧
    (fallbackParse text).needsConfirmation = true ∧
    (fallbackParse text).entities.symbol = specSymbolOf text := by
  refine ⟨?_, ?_, ?_⟩ <;>
    simp [fallbackParse, h, symbolFromMatch_eq_spec]

/-- C7 witness at a concrete buy text. -/
theorem claimC7_witness :
    (fallbackParse "buy AAPL now").intent = .BUY ∧
    (fallbackParse "buy AAPL now").needsConfirmation = true ∧
    (fallbackParse "buy AAPL now").entities.symbol = specSymbolOf "buy AAPL now" :=
  claimC7 "buy AAPL now" (by decide)

/- ## C8 -/

/-- C8: the fallback parser is total — it always yields a command with the
original text and a confidence inside `[0,1]`; when none of the recognized
keywords (buy, purchase, sell, status, portfolio) occurs, the result is the
default QUERY with confidence 0.3 and `needsConfirmation = false`. -/
theorem claimC8 (text : String) :
    0 ≤ (fallbackParse text).confidence ∧
    (fallbackParse text).confidence ≤ 1 ∧
    (fallbackParse text).originalText = text ∧
    ((strIncludes (strLower text) "buy" = false ∧
      strIncludes (strLower text) "purchase" = false ∧
      strIncludes (strLower text) "sell" = false ∧
      strIncludes (strLower text) "status" = false ∧
      strIncludes (strLower text) "portfolio" = false) →
      (fallbackParse text).intent = .QUERY ∧
      (fallbackParse text).confidence = 3/10 ∧
      (fallbackParse text).needsConfirmation = false) := by
  cases hb : strIncludes (strLower text) "buy" <;>
    cases hp : strIncludes (strLower text) "purchase" <;>
      cases hs : strIncludes (strLower text) "sell" <;>
        cases ht : strIncludes (strLower text) "status" <;>
          cases hf : strIncludes (strLower text) "portfolio" <;>
            simp [fallbackParse, hb, hp, hs, ht, hf] <;> norm_num

/-- C8 witness: a keyword-free text yields the QUERY default. -/
theorem claimC8_witness :
    (fallbackParse "hello there").intent = .QUERY ∧
    (fallbackParse "hello there").confidence = 3/10 ∧
    (fallbackParse "hello there").needsConfirmation = false :=
  (claimC8 "hello there").2.2.2 (by decide)

/- ## Tally step lemmas -/

/-- Every present market record adds exactly one to the denominator. -/
theorem tallyMarket_total (i : Intent) (md : Option MarketData) (t : SignalTally) :
    (tallyMarket i md t).totalSignals = t.totalSignals + (if md.isSome then 1 else 0) := by
  cases md <;> simp [tallyMarket] <;> split_ifs <;> rfl

/-- For BUY, a present market record is classified (exactly one of the two
counters grows). -/
theorem tallyMarket_buy_classified (md : Option MarketData) (t : SignalTally) :
    (tallyMarket .BUY md t).positiveSignals + (tallyMarket .BUY md t).negativeSignals
      = t.positiveSignals + t.negativeSignals + (if md.isSome then 1 else 0) := by
  cases md <;> simp [tallyMarket] <;> split_ifs <;> simp <;> omega

/-- For any intent other than BUY, the market block touches neither
classification counter. -/
theorem tallyMarket_not_buy (i : Intent) (hi : i ≠ .BUY) (md : Option MarketData) (t : SignalTally) :
    (tallyMarket i md t).positiveSignals = t.positiveSignals ∧
    (tallyMarket i md t).negativeSignals = t.negativeSignals := by
  cases md <;> simp [tallyMarket, hi]

/-- Every present sentiment record adds exactly one to the denominator. -/
theorem tallySentiment_total (i : Intent) (st : Option Sentiment) (t : SignalTally) :
    (tallySentiment i st t).totalSignals = t.totalSignals + (if st.isSome then 1 else 0) := by
  cases st <;> simp [tallySentiment] <;> split_ifs <;> rfl

/-- A present sentiment record is always classified. -/
theorem tallySentiment_classified (i : Intent) (st : Option Sentiment) (t : SignalTally) :
    (tallySentiment i st t).positiveSignals + (tallySentiment i st t).negativeSignals
      = t.positiveSignals + t.negativeSignals + (if st.isSome then 1 else 0) := by
  cases st <;> simp [tallySentiment] <;> split_ifs <;> simp <;> omega

/-- Every present technical record adds exactly one to the denominator. -/
theorem tallyTechnical_total (i : Intent) (tc : Option Technical) (t : SignalTally) :
    (tallyTechnical i tc t).totalSignals = t.totalSignals + (if tc.isSome then 1 else 0) := by
  cases tc <;> simp [tallyTechnical] <;> split_ifs <;> rfl

/-- A present technical record is always classified. -/
theorem tallyTechnical_classified (i : Intent) (tc : Option Technical) (t : SignalTally) :
    (tallyTechnical i tc t).positiveSignals + (tallyTechnical i tc t).negativeSignals
      = t.positiveSignals + t.negativeSignals + (if tc.isSome then 1 else 0) := by
  cases tc <;> simp [tallyTechnical] <;> split_ifs <;> simp <;> omega

/-- Every present risk record adds exactly one to the denominator. -/
theorem tallyRisk_total (rk : Option Risk) (t : SignalTally) :
    (tallyRisk rk t).totalSignals = t.totalSignals + (if rk.isSome then 1 else 0) := by
  cases rk <;> simp [tallyRisk] <;> split_ifs <;> rfl

/-- A present risk record is always classified. -/
theorem tallyRisk_classified (rk : Option Risk) (t : SignalTally) :
    (tallyRisk rk t).positiveSignals + (tallyRisk rk t).negativeSignals
      = t.positiveSignals + t.negativeSignals + (if rk.isSome then 1 else 0) := by
  cases rk <;> simp [tallyRisk] <;> split_ifs <;> simp <;> omega

/-- The market block never decreases a counter, and grows the classification
counters by at most what it grows the denominator. -/
theorem tallyMarket_le (i : Intent) (md : Option MarketData) (t : SignalTally) :
    (tallyMarket i md t).positiveSignals + (tallyMarket i md t).negativeSignals
      ≤ t.positiveSignals + t.negativeSignals + (if md.isSome then 1 else 0) := by
  by_cases hi : i = .BUY
  · subst hi; exact le_of_eq (tallyMarket_buy_classified md t)
  · obtain ⟨hp, hn⟩ := tallyMarket_not_buy i hi md t
    rw [hp, hn]; omega

/-- The denominator of the tally counts exactly the present dimensions. -/
theorem tallySignals_total (a : AgentAnalysis) (i : Intent) :
    (tallySignals a i).totalSignals =
      (if a.marketData.isSome then 1 else 0) + (if a.sentiment.isSome then 1 else 0) +
      (if a.technical.isSome then 1 else 0) + (if a.risk.isSome then 1 else 0) := by
  unfold tallySignals
  rw [tallyRisk_total, tallyTechnical_total, tallySentiment_total, tallyMarket_total]
  have h0 : initialTally.totalSignals = 0 := rfl
  omega

/-- Classified signals never exceed the denominator. -/
theorem tallySignals_le (a : AgentAnalysis) (i : Intent) :
    (tallySignals a i).positiveSignals + (tallySignals a i).negativeSignals
      ≤ (tallySignals a i).totalSignals := by
  unfold tallySignals
  have h1 := tallyMarket_le i a.marketData initialTally
  have h2 := tallySentiment_classified i a.sentiment (tallyMarket i a.marketData initialTally)
  have h3 := tallyTechnical_classified i a.technical
    (tallySentiment i a.sentiment (tallyMarket i a.marketData initialTally))
  have h4 := tallyRisk_classified a.risk
    (tallyTechnical i a.technical (tallySentiment i a.sentiment (tallyMarket i a.marketData initialTally)))
  have t1 := tallyMarket_total i a.marketData initialTally
  have t2 := tallySentiment_total i a.sentiment (tallyMarket i a.marketData initialTally)
  have t3 := tallyTechnical_total i a.technical
    (tallySentiment i a.sentiment (tallyMarket i a.marketData initialTally))
  have t4 := tallyRisk_total a.risk
    (tallyTechnical i a.technical (tallySentiment i a.sentiment (tallyMarket i a.marketData initialTally)))
  have hp0 : initialTally.positiveSignals = 0 := rfl
  have hn0 : initialTally.negativeSignals = 0 := rfl
  have ht0 : initialTally.totalSignals = 0 := rfl
  omega

/- ## C1 -/

/-- C1 counterexample: on the evidence record with no dimension present the
JS division `0/0` yields `NaN` (modelled `none`), so the consensus is not a
ratio in `[0,1]` as the claim asserts for that record. -/
theorem claimC1_counterexample :
    ¬ ∃ c : ℚ, (synthesizeAgentInputs emptyAnalysis .BUY).confidence = some c
        ∧ 0 ≤ c ∧ c ≤ 1 := by
  rintro ⟨c, hc, -, -⟩
  have h : (synthesizeAgentInputs emptyAnalysis .BUY).confidence = none := rfl
  rw [h] at hc
  exact Option.noConfusion hc

/-- C1 (amended): whenever at least one evidence dimension is present, the
consensus is a genuine ratio in `[0,1]` and `shouldProceed` holds exactly
when it is at least 0.6 (so consensus exactly 0.6 would proceed); with no
dimension present the division yields `NaN` and `shouldProceed` is false
(the counterexample theorem). -/
theorem claimC1_amended (a : AgentAnalysis) (i : Intent)
    (h : a.marketData.isSome = true ∨ a.sentiment.isSome = true ∨
         a.technical.isSome = true ∨ a.risk.isSome = true) :
    ∃ c : ℚ, (synthesizeAgentInputs a i).confidence = some c ∧ 0 ≤ c ∧ c ≤ 1 ∧
      ((synthesizeAgentInputs a i).shouldProceed = true ↔ 3/5 ≤ c) := by
  have htot : (tallySignals a i).totalSignals ≠ 0 := by
    have ht := tallySignals_total a i
    rcases h with h | h | h | h <;> rw [h] at ht <;> simp at ht <;> omega
  have hle : (tallySignals a i).positiveSignals ≤ (tallySignals a i).totalSignals := by
    have := tallySignals_le a i
    omega
  refine ⟨((tallySignals a i).positiveSignals : ℚ) / ((tallySignals a i).totalSignals : ℚ),
    ?_, ?_, ?_, ?_⟩
  · simp [synthesizeAgentInputs, htot]
  · positivity
  · rw [div_le_one (by exact_mod_cast Nat.pos_of_ne_zero htot)]
    exact_mod_cast hle
  · simp [synthesizeAgentInputs, htot]

/-- C1 witness: the amended statement at a concrete one-dimension record. -/
theorem claimC1_amended_witness :
    ∃ c : ℚ, (synthesizeAgentInputs marketOnlyNegAnalysis .BUY).confidence = some c ∧
      0 ≤ c ∧ c ≤ 1 ∧
      ((synthesizeAgentInputs marketOnlyNegAnalysis .BUY).shouldProceed = true ↔ 3/5 ≤ c) :=
  claimC1_amended marketOnlyNegAnalysis .BUY (Or.inl rfl)

/- ## C3 -/

/-- C3 counterexample: for intent SELL with market data present (negative
price change), the source counts the market dimension in the denominator but
classifies it neither positive nor negative — the claim predicts a positive
signal (and hence consensus 1 and proceed on this record), the code gives
consensus 0 and no proceed. -/
theorem claimC3_counterexample :
    (tallySignals marketOnlyNegAnalysis .SELL).positiveSignals = 0 ∧
    (tallySignals marketOnlyNegAnalysis .SELL).negativeSignals = 0 ∧
    (tallySignals marketOnlyNegAnalysis .SELL).totalSignals = 1 ∧
    (synthesizeAgentInputs marketOnlyNegAnalysis .SELL).shouldProceed = false := by
  refine ⟨rfl, rfl, rfl, ?_⟩
  have h1 : (tallySignals marketOnlyNegAnalysis .SELL).totalSignals = 1 := rfl
  have h0 : (tallySignals marketOnlyNegAnalysis .SELL).positiveSignals = 0 := rfl
  simp only [synthesizeAgentInputs, h1, h0]
  norm_num

/-- C3 (amended): for intent BUY every present dimension is classified as a
positive or a negative signal, but for intent SELL the market-momentum
dimension is only counted in the denominator and never classified — the
sentiment, technical and risk dimensions are classified for both intents
(sentiment per the mirrored `score < 0.4` rule). -/
theorem claimC3_amended (a : AgentAnalysis) :
    ((tallySignals a .BUY).positiveSignals + (tallySignals a .BUY).negativeSignals
        = (tallySignals a .BUY).totalSignals) ∧
    ((tallySignals a .SELL).positiveSignals + (tallySignals a .SELL).negativeSignals
        + (if a.marketData.isSome then 1 else 0) = (tallySignals a .SELL).totalSignals) := by
  constructor
  · unfold tallySignals
    have h1 := tallyMarket_buy_classified a.marketData initialTally
    have h2 := tallySentiment_classified .BUY a.sentiment (tallyMarket .BUY a.marketData initialTally)
    have h3 := tallyTechnical_classified .BUY a.technical
      (tallySentiment .BUY a.sentiment (tallyMarket .BUY a.marketData initialTally))
    have h4 := tallyRisk_classified a.risk
      (tallyTechnical .BUY a.technical (tallySentiment .BUY a.sentiment (tallyMarket .BUY a.marketData initialTally)))
    have t1 := tallyMarket_total .BUY a.marketData initialTally
    have t2 := tallySentiment_total .BUY a.sentiment (tallyMarket .BUY a.marketData initialTally)
    have t3 := tallyTechnical_total .BUY a.technical
      (tallySentiment .BUY a.sentiment (tallyMarket .BUY a.marketData initialTally))
    have t4 := tallyRisk_total a.risk
      (tallyTechnical .BUY a.technical (tallySentiment .BUY a.sentiment (tallyMarket .BUY a.marketData initialTally)))
    have hp0 : initialTally.positiveSignals = 0 := rfl
    have hn0 : initialTally.negativeSignals = 0 := rfl
    have ht0 : initialTally.totalSignals = 0 := rfl
    omega
  · unfold tallySignals
    have h1 := tallyMarket_not_buy .SELL (by simp) a.marketData initialTally
    have h2 := tallySentiment_classified .SELL a.sentiment (tallyMarket .SELL a.marketData initialTally)
    have h3 := tallyTechnical_classified .SELL a.technical
      (tallySentiment .SELL a.sentiment (tallyMarket .SELL a.marketData initialTally))
    have h4 := tallyRisk_classified a.risk
      (tallyTechnical .SELL a.technical (tallySentiment .SELL a.sentiment (tallyMarket .SELL a.marketData initialTally)))
    have t1 := tallyMarket_total .SELL a.marketData initialTally
    have t2 := tallySentiment_total .SELL a.sentiment (tallyMarket .SELL a.marketData initialTally)
    have t3 := tallyTechnical_total .SELL a.technical
      (tallySentiment .SELL a.sentiment (tallyMarket .SELL a.marketData initialTally))
    have t4 := tallyRisk_total a.risk
      (tallyTechnical .SELL a.technical (tallySentiment .SELL a.sentiment (tallyMarket .SELL a.marketData initialTally)))
    have hp0 : initialTally.positiveSignals = 0 := rfl
    have hn0 : initialTally.negativeSignals = 0 := rfl
    have ht0 : initialTally.totalSignals = 0 := rfl
    obtain ⟨e1, e2⟩ := h1
    omega

/- ## C4 -/

/-- Evaluation of `toFixed(0)` at the default sentiment display value. -/
theorem jsToFixed_fifty : jsToFixed 0 (50 : ℚ) = "50" := by
  simp only [jsToFixed, pow_zero, mul_one]
  rw [if_neg (by norm_num : ¬ (50 : ℚ) < 0),
    show (⌊(50 : ℚ) + 1/2⌋ : ℤ) = 50 by norm_num]
  rfl

/-- C4: with all three remote calls rejecting, the aggregator still returns
the fully-populated record with the documented defaults (market 100/0/1M,
sentiment 0.5/0.7, risk MEDIUM/5) plus the locally derived technical and
strategy sub-records; no failure escapes to the caller. -/
theorem claimC4 (e1 e2 e3 : String) (i : Intent) (r : Fin 30) :
    gatherAgentInputs (.error e1) (.error e2) (.error e3) i r =
      { marketData := some { price := 100, change := 0, volume := 1000000 }
        sentiment := some { score := 1/2, confidence := 7/10, sources := ["mock"] }
        technical := some { trend := .Sideways, rsi := r.val + 35, support := 95, resistance := 105 }
        risk := some { status := "MEDIUM", score := 5, factors := ["volatility"] }
        strategy := some { recommendation := "HOLD"
                           confidence := 19/25
                           reasoning := "Based on sentiment (50%) and technical analysis" } } := by
  have harg : ((if (1/2 : ℚ) = 0 then 1/2 else (1/2 : ℚ)) * 100) = 50 := by norm_num
  cases i <;>
    simp only [gatherAgentInputs, harg, jsToFixed_fifty] <;>
    norm_num [min_def] <;>
    rfl

/- ## C2 -/

/-- C2: a parsed command with `needsConfirmation = true` and no truthy
confirmed flag in context short-circuits to the confirmation prompt
(attaching the intent, entities and confidence as response data), and the
result does not depend on the router at all — so no routing, evidence
gathering or execution stage is consulted. -/
theorem claimC2 (route route' : ParsedCommand → CommandResponse)
    (pc : ParsedCommand) (h : pc.needsConfirmation = true) :
    processCommand route pc false =
      { success := true
        message := generateConfirmationMessage pc
        data := some (.confirmGate pc.intent pc.entities pc.confidence)
        followUp := some "Reply with \"yes\" to confirm or \"no\" to cancel." } ∧
    processCommand route pc false = processCommand route' pc false := by
  constructor <;> simp [processCommand, h]

/-- A stub router used only to instantiate the gate theorem. -/
def routeStubA : ParsedCommand → CommandResponse :=
  fun _ => { success := true, message := "A" }

/-- A second, different stub router. -/
def routeStubB : ParsedCommand → CommandResponse :=
  fun _ => { success := false, message := "B" }

/-- A concrete high-impact parsed command. -/
def confirmExample : ParsedCommand :=
  { intent := .SELL
    entities := { symbol := some "NVDA" }
    originalText := "sell NVDA"
    confidence := 7/10
    needsConfirmation := true }

/-- C2 witness: the gate at a concrete command and two distinct routers. -/
theorem claimC2_witness :
    processCommand routeStubA confirmExample false =
      { success := true
        message := generateConfirmationMessage confirmExample
        data := some (.confirmGate confirmExample.intent confirmExample.entities confirmExample.confidence)
        followUp := some "Reply with \"yes\" to confirm or \"no\" to cancel." } ∧
    processCommand routeStubA confirmExample false = processCommand routeStubB confirmExample false :=
  claimC2 routeStubA routeStubB confirmExample rfl

/- ## C9 -/

/-- Folding the per-session update map-wise agrees with folding
`addToHistory` over just the entries of the observed session, in order. -/
theorem foldl_addToSessionHistory {α : Type} (ops : List (String × α)) :
    ∀ (m : String → List α) (sid : String),
      (ops.foldl (fun acc p => addToSessionHistory acc p.1 p.2) m) sid =
        ((ops.filter (fun p => p.1 == sid)).map Prod.snd).foldl addToHistory (m sid) := by
  induction ops with
  | nil => intro m sid; rfl
  | cons p rest ih =>
    intro m sid
    rw [List.foldl_cons, ih]
    by_cases hs : p.1 = sid
    · subst hs
      simp [List.filter_cons, addToSessionHistory]
    · have hbeq : (p.1 == sid) = false := by simp [hs]
      simp [List.filter_cons, hbeq, addToSessionHistory, Ne.symm hs]

/-- Folding `addToHistory` from a within-capacity state keeps exactly the
most recent ten entries of the concatenated stream. -/
theorem foldl_addToHistory {α : Type} (es : List α) :
    ∀ init : List α, init.length ≤ 10 →
      es.foldl addToHistory init = (init ++ es).drop (init.length + es.length - 10) := by
  induction es with
  | nil =>
    intro init h
    simp [Nat.sub_eq_zero_of_le h]
  | cons e rest ih =>
    intro init h
    rw [List.foldl_cons]
    by_cases hlen : init.length + 1 > 10
    · have h10 : init.length = 10 := by omega
      have hstep : addToHistory init e = (init ++ [e]).drop 1 := by
        simp only [addToHistory]
        rw [if_pos (by simp [h10])]
      have hlen' : ((init ++ [e]).drop 1).length ≤ 10 := by
        simp [h10]
      rw [hstep, ih _ hlen']
      have hdl : ((init ++ [e]).drop 1).length = 10 := by simp [h10]
      rw [hdl]
      have hsplit : ((init ++ [e]) ++ rest).drop 1 = (init ++ [e]).drop 1 ++ rest := by
        rw [List.drop_append_eq_append_drop]
        have h0 : 1 - (init ++ [e]).length = 0 := by
          simp only [List.length_append, List.length_singleton]
          omega
        rw [h0, List.drop_zero]
      rw [← hsplit, List.drop_drop, List.append_assoc, List.singleton_append]
      congr 1
      simp only [List.length_cons]
      omega
    · have hstep : addToHistory init e = init ++ [e] := by
        simp only [addToHistory]
        rw [if_neg (by simp; omega)]
      have hlen' : (init ++ [e]).length ≤ 10 := by simp; omega
      rw [hstep, ih _ hlen']
      rw [List.append_assoc, List.singleton_append]
      congr 1
      have hl1 : (init ++ [e]).length = init.length + 1 := by simp
      rw [hl1, List.length_cons]
      omega

/-- C9: per-session bounded FIFO history — after any sequence of insertions
the history map holds, for every session, exactly the most recent at most
ten entries inserted for that session, in insertion order. -/
theorem claimC9 {α : Type} (ops : List (String × α)) (sid : String) :
    ((ops.foldl (fun acc p => addToSessionHistory acc p.1 p.2) (fun _ => [])) sid =
      ((ops.filter (fun p => p.1 == sid)).map Prod.snd).drop
        (((ops.filter (fun p => p.1 == sid)).map Prod.snd).length - 10)) ∧
    ((ops.foldl (fun acc p => addToSessionHistory acc p.1 p.2) (fun _ => [])) sid).length ≤ 10 := by
  have hmain := foldl_addToSessionHistory ops (fun _ => ([] : List α)) sid
  have hfold := foldl_addToHistory ((ops.filter (fun p => p.1 == sid)).map Prod.snd)
    ([] : List α) (by simp)
  simp only [List.nil_append, List.length_nil, Nat.zero_add] at hfold
  constructor
  · rw [hmain, hfold]
  · rw [hmain, hfold]
    simp only [List.length_drop]
    omega

/- ## C10 -/

/-- C10: a BUY or SELL command without a symbol is answered with the
clarification failure, and the response does not depend on any part of the
environment (service outcomes, randomness, clock) — no external call is
consulted. -/
theorem claimC10 (env env' : Env) (cmd : ParsedCommand)
    (hi : cmd.intent = .BUY ∨ cmd.intent = .SELL)
    (hs : cmd.entities.symbol = none) :
    routeCommand env cmd =
      { success := false
        message := "Please specify a stock symbol for trading commands." } ∧
    routeCommand env cmd = routeCommand env' cmd := by
  rcases hi with hi | hi <;>
    exact ⟨by simp [routeCommand, hi, handleTradingCommand, hs],
           by simp [routeCommand, hi, handleTradingCommand, hs]⟩

/-- A fully rejecting environment. -/
def envStubA : Env :=
  { marketResult := .error "market down"
    sentimentResult := .error "sentiment down"
    riskAssessResult := .error "risk down"
    pretradeResult := .error "pretrade down"
    alertSetResult := .error "config down"
    randQuery := 0
    randRsi := 0
    nowIso := "2024-01-01T00:00:00.000Z"
    nowMs := 0 }

/-- A second, different environment. -/
def envStubB : Env :=
  { envStubA with
      pretradeResult := .ok { status := some "APPROVED", breaches := none }
      randQuery := 3
      nowMs := 42 }

/-- A BUY command with no symbol entity. -/
def noSymbolBuy : ParsedCommand :=
  { intent := .BUY
    entities := {}
    originalText := "buy"
    confidence := 7/10
    needsConfirmation := true }

/-- C10 witness: the guard at a concrete command and two environments. -/
theorem claimC10_witness :
    routeCommand envStubA noSymbolBuy =
      { success := false
        message := "Please specify a stock symbol for trading commands." } ∧
    routeCommand envStubA noSymbolBuy = routeCommand envStubB noSymbolBuy :=
  claimC10 envStubA envStubB noSymbolBuy (Or.inl rfl) rfl
